import Mathlib

/-!
Shallow embedding of `src/packages/now-build-utils/src/fs/node-version.ts`
(the Node.js runtime version resolver) and proofs about it.

Modelling conventions:
* JS `Date` values and `Date.now()` are modelled as `Int` milliseconds since
  the Unix epoch.  The module-level constants of the source file
  (`supportedOptions`, `pleaseUse`) call `isDiscontinued`, hence read the
  clock, at module-evaluation time; we therefore thread an explicit
  `loadTime` into them, and an explicit `now` into the per-call checks,
  mirroring exactly which clock read each piece of the source performs.
* `semver.intersects` is a third-party library, not code of this
  repository; the resolver only ever calls it as a black box
  `intersects(o.range, engineRange)`.  It is modelled as an explicit
  function parameter `intersects : String → String → Bool`.
* `console.warn(boxen(msg, ...))` is modelled by recording the string
  passed to `boxen` (the box-drawing of the `boxen` library is external
  presentation); the `debug(...)` call writes only when a debug
  environment variable is set and is not modelled.
* JS string truthiness (`if (engineRange)`, `!engineRange`) is modelled by
  `rangeTruthy`: an absent or empty string is falsy.
-/

/-- Structure `NodeVersion` from `src/packages/now-build-utils/src/types.ts`:
major version, semver range, runtime identifier, optional discontinue
date (ms since epoch). -/
structure NodeVersion where
  major : Nat
  range : String
  runtime : String
  discontinueDate : Option Int := none
deriving DecidableEq, Repr

instance : Inhabited NodeVersion :=
  ⟨{ major := 0, range := "", runtime := "" }⟩

/-- Structure `NowBuildError` (fields used here) from
`src/packages/now-build-utils/src/errors.ts`: an error carrying a
machine-readable code and a human-readable message. -/
structure NowBuildError where
  code : String
  message : String
deriving DecidableEq, Repr

/-- Milliseconds since the epoch of the JS date 2020-01-06 (UTC midnight),
the value stored by `new Date` for the discontinue date in `allOptions`. -/
def discontinueDate2020_01_06 : Int := 1578268800000

/-- The static option list `allOptions` of `node-version.ts`, newest to
oldest. -/
def allOptions : List NodeVersion :=
  [ { major := 12, range := "12.x", runtime := "nodejs12.x" },
    { major := 10, range := "10.x", runtime := "nodejs10.x" },
    { major := 8, range := "8.10.x", runtime := "nodejs8.10",
      discontinueDate := some discontinueDate2020_01_06 } ]

/-- Function `isDiscontinued` of `node-version.ts`: the discontinue date is set and
not after the current time.  The source reads `Date.now()` itself; the
current time is the explicit argument `now`. -/
def isDiscontinued (now : Int) (o : NodeVersion) : Bool :=
  match o.discontinueDate with
  | some d => d ≤ now
  | none => false

/-- Constant `supportedOptions` of `node-version.ts`.  In the source this is a
module-level constant, so `isDiscontinued` is evaluated once with the
clock at module-load time: the argument `loadTime`. -/
def supportedOptions (loadTime : Int) : List NodeVersion :=
  allOptions.filter (fun o => !isDiscontinued loadTime o)

/-- Rendering of `JSON.stringify` on a list of plain strings (none of the ranges
contain characters JSON would escape). -/
def jsonStringifyRanges (rs : List String) : String :=
  "[" ++ String.intercalate "," (rs.map (fun r => "\"" ++ r ++ "\"")) ++ "]"

/-- Function `getOldestNodeVersion` of `node-version.ts`: the last element
of `allOptions`. -/
def getOldestNodeVersion : NodeVersion := allOptions.getLast!

/-- Function `getLatestNodeVersion` of `node-version.ts`: the first element
of `allOptions`. -/
def getLatestNodeVersion : NodeVersion := allOptions.head!

/-- The module-level `pleaseUse` string of `node-version.ts`;
`loadTime` is the module-load clock used to compute `supportedOptions`. -/
def pleaseUse (loadTime : Int) : String :=
  "Please use one of the following `engines` in your `package.json`: " ++
  jsonStringifyRanges ((supportedOptions loadTime).map NodeVersion.range)

/-- The module-level `pleaseAdd` string of `node-version.ts`. -/
def pleaseAdd : String :=
  "Please add \"engines\": \x7b \"node\": \"" ++ getLatestNodeVersion.range ++
  "\" \x7d to your `package.json` file."

/-- The module-level `upstreamProvider` string of `node-version.ts`. -/
def upstreamProvider : String :=
  "This change is the result of a decision made by an upstream infrastructure provider (AWS)." ++
  "\nRead more: https://docs.aws.amazon.com/lambda/latest/dg/runtime-support-policy.html"

/-- JS truthiness of the optional `engineRange` string: absent or empty is
falsy. -/
def rangeTruthy : Option String → Bool
  | none => false
  | some s => !(s == "")

/-- Civil date (year, month, day) of a day count from 1970-01-01
(the classic civil-from-days algorithm of Howard Hinnant, as used for Gregorian
calendar conversion in `Date.prototype.toISOString`). -/
def civilFromDays (z0 : Int) : Int × Int × Int :=
  let z := z0 + 719468
  let era := Int.fdiv z 146097
  let doe := z - era * 146097
  let yoe := Int.fdiv (doe - Int.fdiv doe 1460 + Int.fdiv doe 36524 - Int.fdiv doe 146096) 365
  let y := yoe + era * 400
  let doy := doe - (365 * yoe + Int.fdiv yoe 4 - Int.fdiv yoe 100)
  let mp := Int.fdiv (5 * doy + 2) 153
  let d := doy - Int.fdiv (153 * mp + 2) 5 + 1
  let m := mp + (if mp < 10 then 3 else -9)
  (y + (if m ≤ 2 then 1 else 0), m, d)

/-- Zero-pad a number below 100 to two digits. -/
def pad2 (n : Nat) : String :=
  if n < 10 then "0" ++ toString n else toString n

/-- Zero-pad a number below 10000 to four digits. -/
def pad4 (n : Nat) : String :=
  if n < 10 then "000" ++ toString n
  else if n < 100 then "00" ++ toString n
  else if n < 1000 then "0" ++ toString n
  else toString n

/-- The date part, in `YYYY-MM-DD` form, of the ISO string of a millisecond
timestamp: what the source obtains from `toISOString` before splitting at
the letter T. -/
def isoDateOfMs (ms : Int) : String :=
  let days := Int.fdiv ms 86400000
  let c := civilFromDays days
  pad4 c.1.toNat ++ "-" ++ pad2 c.2.1.toNat ++ "-" ++ pad2 c.2.2.toNat

/-- The scan loop of `getSupportedNodeVersion`, which the source writes as
`allOptions.some` with a callback that assigns `selection` and returns the
intersection test: walking the list, `selection` is
overwritten with the current option before the intersection test, and the
walk stops at the first option whose range intersects.  Returns the final
value of `selection` together with the value of `found`. -/
def scanOptions (intersects : String → String → Bool) (engineRange : String) :
    List NodeVersion → NodeVersion → NodeVersion × Bool
  | [], selection => (selection, false)
  | o :: rest, _ =>
    if intersects o.range engineRange then (o, true)
    else scanOptions intersects engineRange rest o

/-- The `intro` string of the `NOW_BUILD_UTILS_NODE_VERSION_INVALID` error
(`isAuto || !engineRange` chooses the phrasing). -/
def invalidIntro (engineRange : Option String) (isAuto : Bool) : String :=
  if isAuto || !rangeTruthy engineRange then
    "This project is using an invalid version of Node.js and must be changed."
  else
    "Found `engines` in `package.json` with an invalid Node.js version range: " ++
    engineRange.getD ""

/-- The `intro` string of the `NOW_BUILD_UTILS_NODE_VERSION_DISCONTINUED`
error (`isAuto || !engineRange` chooses the phrasing). -/
def discontinuedIntro (loadTime : Int) (engineRange : Option String) (isAuto : Bool) : String :=
  if isAuto || !rangeTruthy engineRange then
    "This project is using a discontinued version of Node.js and must be upgraded." ++
    "\n" ++ pleaseAdd
  else
    "Found `engines` in `package.json` with a discontinued Node.js version range: " ++
    engineRange.getD "" ++ "\n" ++ pleaseUse loadTime

/-- The string passed to `boxen` for the `console.warn` advisory notice,
for a selection whose `discontinueDate` is set. -/
def warnText (loadTime : Int) (autoPhrasing : Bool) (selection : NodeVersion) : String :=
  ("NOTICE" ++ "\n" ++
   "\nNode.js version " ++ selection.range ++ " has reached end-of-life." ++
   "\nAs a result, deployments created on or after ") ++
  isoDateOfMs (selection.discontinueDate.getD 0) ++
  (" will fail to build." ++
   "\n" ++ (if autoPhrasing then pleaseAdd else pleaseUse loadTime) ++
   "\n" ++ upstreamProvider)

/-- The tail of `getSupportedNodeVersion` after the range scan: the
discontinued check (throwing `NOW_BUILD_UTILS_NODE_VERSION_DISCONTINUED`),
then the advisory `console.warn` when `selection.discontinueDate` is set,
then `return selection`.  The second component lists the `console.warn`
payloads emitted. -/
def finishSelection (loadTime now : Int) (engineRange : Option String) (isAuto : Bool)
    (selection : NodeVersion) : Except NowBuildError NodeVersion × List String :=
  if isDiscontinued now selection then
    (Except.error
      { code := "NOW_BUILD_UTILS_NODE_VERSION_DISCONTINUED",
        message := discontinuedIntro loadTime engineRange isAuto ++ "\n" ++ upstreamProvider },
     [])
  else
    match selection.discontinueDate with
    | some _ =>
      (Except.ok selection,
       [warnText loadTime (isAuto || !rangeTruthy engineRange) selection])
    | none => (Except.ok selection, [])

/-- Function `getSupportedNodeVersion` of `node-version.ts`.  Here
`intersects` is the range-intersection test of the `semver` library (an
external dependency,
abstracted); `loadTime` is the clock at module evaluation (used by the
module-level `supportedOptions`/`pleaseUse` constants); `now` is the
clock at the call (used by `isDiscontinued`).  The result pairs the
returned value or thrown `NowBuildError` with the list of `console.warn`
payloads emitted during the call. -/
def getSupportedNodeVersion (intersects : String → String → Bool) (loadTime now : Int)
    (engineRange : Option String) (isAuto : Bool) :
    Except NowBuildError NodeVersion × List String :=
  let selection := getOldestNodeVersion
  if rangeTruthy engineRange then
    let scan := scanOptions intersects (engineRange.getD "") allOptions selection
    if scan.2 then finishSelection loadTime now engineRange isAuto scan.1
    else
      (Except.error
        { code := "NOW_BUILD_UTILS_NODE_VERSION_INVALID",
          message := invalidIntro engineRange isAuto ++ "\n" ++ pleaseUse loadTime },
       [])
  else finishSelection loadTime now engineRange isAuto selection

/-! ### Helper lemmas about the scan loop and the selection tail -/

theorem scanOptions_find_some (intersects : String → String → Bool) (engineRange : String) :
    ∀ (l : List NodeVersion) (s x : NodeVersion),
      l.find? (fun o => intersects o.range engineRange) = some x →
      scanOptions intersects engineRange l s = (x, true) := by
  intro l
  induction l with
  | nil => intro s x h; simp at h
  | cons o rest ih =>
    intro s x h
    by_cases hp : intersects o.range engineRange = true
    · rw [List.find?_cons_of_pos (p := fun o => intersects o.range engineRange) rest hp] at h
      injection h with h
      subst h
      simp [scanOptions, hp]
    · rw [List.find?_cons_of_neg (p := fun o => intersects o.range engineRange) rest
        (by simpa using hp)] at h
      simp only [scanOptions, if_neg hp]
      exact ih o x h

theorem scanOptions_find_none (intersects : String → String → Bool) (engineRange : String) :
    ∀ (l : List NodeVersion) (s : NodeVersion),
      l.find? (fun o => intersects o.range engineRange) = none →
      (scanOptions intersects engineRange l s).2 = false := by
  intro l
  induction l with
  | nil => intro s _; simp [scanOptions]
  | cons o rest ih =>
    intro s h
    rw [List.find?_cons] at h
    by_cases hp : intersects o.range engineRange = true
    · simp [hp] at h
    · simp only [scanOptions, if_neg hp]
      exact ih o (by simpa [hp] using h)

theorem scanOptions_mem (intersects : String → String → Bool) (engineRange : String) :
    ∀ (l : List NodeVersion) (s : NodeVersion),
      (scanOptions intersects engineRange l s).2 = true →
      (scanOptions intersects engineRange l s).1 ∈ l := by
  intro l
  induction l with
  | nil => intro s h; simp [scanOptions] at h
  | cons o rest ih =>
    intro s h
    by_cases hp : intersects o.range engineRange = true
    · simp [scanOptions, hp]
    · simp only [scanOptions, if_neg hp] at h ⊢
      exact List.mem_cons_of_mem o (ih o h)

theorem finishSelection_of_discontinued (loadTime now : Int) (er : Option String)
    (isAuto : Bool) (sel : NodeVersion) (h : isDiscontinued now sel = true) :
    finishSelection loadTime now er isAuto sel =
      (Except.error
        { code := "NOW_BUILD_UTILS_NODE_VERSION_DISCONTINUED",
          message := discontinuedIntro loadTime er isAuto ++ "\n" ++ upstreamProvider },
       []) := by
  simp [finishSelection, h]

theorem finishSelection_of_not_discontinued (loadTime now : Int) (er : Option String)
    (isAuto : Bool) (sel : NodeVersion) (h : isDiscontinued now sel = false) :
    (finishSelection loadTime now er isAuto sel).1 = Except.ok sel := by
  unfold finishSelection
  rw [h]
  cases sel.discontinueDate <;> simp

theorem finishSelection_error (loadTime now : Int) (er : Option String)
    (isAuto : Bool) (sel : NodeVersion) (e : NowBuildError)
    (h : (finishSelection loadTime now er isAuto sel).1 = Except.error e) :
    e.code = "NOW_BUILD_UTILS_NODE_VERSION_DISCONTINUED" ∧
      isDiscontinued now sel = true ∧
      (finishSelection loadTime now er isAuto sel).2 = [] := by
  by_cases hd : isDiscontinued now sel = true
  · rw [finishSelection_of_discontinued loadTime now er isAuto sel hd] at h ⊢
    injection h with h
    exact ⟨by rw [← h], hd, rfl⟩
  · rw [finishSelection_of_not_discontinued loadTime now er isAuto sel
      (by simpa using hd)] at h
    exact absurd h (by simp)

theorem finishSelection_ok (loadTime now : Int) (er : Option String)
    (isAuto : Bool) (sel x : NodeVersion)
    (h : (finishSelection loadTime now er isAuto sel).1 = Except.ok x) :
    x = sel ∧ isDiscontinued now sel = false := by
  by_cases hd : isDiscontinued now sel = true
  · rw [finishSelection_of_discontinued loadTime now er isAuto sel hd] at h
    exact absurd h (by simp)
  · rw [finishSelection_of_not_discontinued loadTime now er isAuto sel
      (by simpa using hd)] at h
    injection h with h
    exact ⟨h.symm, by simpa using hd⟩

theorem getSupportedNodeVersion_falsy (intersects : String → String → Bool)
    (loadTime now : Int) (er : Option String) (isAuto : Bool)
    (h : rangeTruthy er = false) :
    getSupportedNodeVersion intersects loadTime now er isAuto =
      finishSelection loadTime now er isAuto getOldestNodeVersion := by
  simp [getSupportedNodeVersion, h]

theorem getSupportedNodeVersion_found (intersects : String → String → Bool)
    (loadTime now : Int) (er : String) (isAuto : Bool) (first : NodeVersion)
    (ht : rangeTruthy (some er) = true)
    (h : allOptions.find? (fun o => intersects o.range er) = some first) :
    getSupportedNodeVersion intersects loadTime now (some er) isAuto =
      finishSelection loadTime now (some er) isAuto first := by
  have hs := scanOptions_find_some intersects er allOptions getOldestNodeVersion first h
  simp [getSupportedNodeVersion, ht, Option.getD, hs]

theorem getSupportedNodeVersion_not_found (intersects : String → String → Bool)
    (loadTime now : Int) (er : String) (isAuto : Bool)
    (ht : rangeTruthy (some er) = true)
    (h : allOptions.find? (fun o => intersects o.range er) = none) :
    getSupportedNodeVersion intersects loadTime now (some er) isAuto =
      (Except.error
        { code := "NOW_BUILD_UTILS_NODE_VERSION_INVALID",
          message := invalidIntro (some er) isAuto ++ "\n" ++ pleaseUse loadTime },
       []) := by
  have hs := scanOptions_find_none intersects er allOptions getOldestNodeVersion h
  simp [getSupportedNodeVersion, ht, Option.getD, hs]

theorem rangeTruthy_some (er : String) (her : er ≠ "") : rangeTruthy (some er) = true := by
  simpa [rangeTruthy] using her

theorem getSupportedNodeVersion_cases (intersects : String → String → Bool)
    (loadTime now : Int) (er : Option String) (isAuto : Bool) :
    (∃ sel, getSupportedNodeVersion intersects loadTime now er isAuto =
        finishSelection loadTime now er isAuto sel) ∨
    getSupportedNodeVersion intersects loadTime now er isAuto =
      (Except.error
        { code := "NOW_BUILD_UTILS_NODE_VERSION_INVALID",
          message := invalidIntro er isAuto ++ "\n" ++ pleaseUse loadTime },
       []) := by
  by_cases ht : rangeTruthy er = true
  · cases er with
    | none => simp [rangeTruthy] at ht
    | some s =>
      cases hfind : allOptions.find? (fun o => intersects o.range s) with
      | some x =>
        exact Or.inl ⟨x, getSupportedNodeVersion_found intersects loadTime now s isAuto x ht hfind⟩
      | none =>
        exact Or.inr (getSupportedNodeVersion_not_found intersects loadTime now s isAuto ht hfind)
  · exact Or.inl ⟨getOldestNodeVersion,
      getSupportedNodeVersion_falsy intersects loadTime now er isAuto (by simpa using ht)⟩

/-! ### The claims -/

/-- Claim C1: newest-match-wins.  When the requested range is present (a
non-empty string) and `first` is the first option of the newest-to-oldest
list `allOptions` whose range intersects it (`List.find?` returns the
first hit), the resolver continues with exactly `first` as its selection;
in particular, whenever `first` is not discontinued at call time, the call
returns `first` — the newest matching option, not the last matching one. -/
theorem claim_newest_match_wins (intersects : String → String → Bool)
    (loadTime now : Int) (er : String) (isAuto : Bool) (first : NodeVersion)
    (her : er ≠ "")
    (hf : allOptions.find? (fun o => intersects o.range er) = some first) :
    getSupportedNodeVersion intersects loadTime now (some er) isAuto =
      finishSelection loadTime now (some er) isAuto first ∧
    (isDiscontinued now first = false →
      (getSupportedNodeVersion intersects loadTime now (some er) isAuto).1 =
        Except.ok first) := by
  have ht := rangeTruthy_some er her
  have hm := getSupportedNodeVersion_found intersects loadTime now er isAuto first ht hf
  refine ⟨hm, fun hnd => ?_⟩
  rw [hm]
  exact finishSelection_of_not_discontinued loadTime now (some er) isAuto first hnd

/-- Witness for C1 at a concrete input: with an intersection test that
matches every option and requested range `10.x`, the resolver returns the
newest option (major 12), not the last matching one. -/
theorem claim_newest_match_wins_witness :
    (getSupportedNodeVersion (fun _ _ => true) 0 0 (some "10.x") false).1 =
      Except.ok { major := 12, range := "12.x", runtime := "nodejs12.x" } :=
  (claim_newest_match_wins (fun _ _ => true) 0 0 "10.x" false
    { major := 12, range := "12.x", runtime := "nodejs12.x" }
    (by decide) (by decide)).2 (by decide)

/-- Claim C2: `InvalidRange` exactly when no option matches.  For a
present (non-empty; under real semver an empty range intersects
everything, so a present range with no intersections is non-empty)
requested range, the call fails with the
`NOW_BUILD_UTILS_NODE_VERSION_INVALID` error exactly when the range
intersects the range of no known option. -/
theorem claim_invalid_iff_no_match (intersects : String → String → Bool)
    (loadTime now : Int) (er : String) (isAuto : Bool)
    (her : er ≠ "") :
    ((∀ o ∈ allOptions, intersects o.range er = false) ↔
      ∃ e, (getSupportedNodeVersion intersects loadTime now (some er) isAuto).1 =
            Except.error e ∧ e.code = "NOW_BUILD_UTILS_NODE_VERSION_INVALID") := by
  have ht := rangeTruthy_some er her
  constructor
  · intro hall
    have hf : allOptions.find? (fun o => intersects o.range er) = none := by
      rw [List.find?_eq_none]
      intro x hx
      simp [hall x hx]
    rw [getSupportedNodeVersion_not_found intersects loadTime now er isAuto ht hf]
    exact ⟨_, rfl, rfl⟩
  · rintro ⟨e, he, hc⟩ o ho
    by_contra hp
    cases hfind : allOptions.find? (fun o => intersects o.range er) with
    | none =>
      rw [List.find?_eq_none] at hfind
      exact (hfind o ho) (by simpa using hp)
    | some first =>
      rw [getSupportedNodeVersion_found intersects loadTime now er isAuto first ht hfind] at he
      have hcode := (finishSelection_error loadTime now (some er) isAuto first e he).1
      rw [hcode] at hc
      exact absurd hc (by decide)

/-- Witness for C2 at a concrete input: an intersection test that matches
nothing, requested range `6.x`. -/
theorem claim_invalid_iff_no_match_witness :
    ((∀ o ∈ allOptions, (fun _ _ : String => false) o.range "6.x" = false) ↔
      ∃ e, (getSupportedNodeVersion (fun _ _ => false) 0 0 (some "6.x") false).1 =
            Except.error e ∧ e.code = "NOW_BUILD_UTILS_NODE_VERSION_INVALID") :=
  claim_invalid_iff_no_match (fun _ _ => false) 0 0 "6.x" false (by decide)

/-- Claim C3: discontinued failure.  Whenever the selected option — the
default oldest fallback when the range is absent/falsy, or the first
matching option when present — is discontinued at call time, the call
fails with the `NOW_BUILD_UTILS_NODE_VERSION_DISCONTINUED` error, returns
no option, and emits no warning; this holds for every requested range. -/
theorem claim_discontinued_failure (intersects : String → String → Bool)
    (loadTime now : Int) (er : Option String) (isAuto : Bool) (sel : NodeVersion)
    (hsel : (rangeTruthy er = true ∧
               allOptions.find? (fun o => intersects o.range (er.getD "")) = some sel) ∨
            (rangeTruthy er = false ∧ sel = getOldestNodeVersion))
    (hd : isDiscontinued now sel = true) :
    (getSupportedNodeVersion intersects loadTime now er isAuto).1 =
      Except.error
        { code := "NOW_BUILD_UTILS_NODE_VERSION_DISCONTINUED",
          message := discontinuedIntro loadTime er isAuto ++ "\n" ++ upstreamProvider } ∧
    (getSupportedNodeVersion intersects loadTime now er isAuto).2 = [] := by
  rcases hsel with ⟨ht, hf⟩ | ⟨ht, hs⟩
  · cases er with
    | none => simp [rangeTruthy] at ht
    | some s =>
      rw [getSupportedNodeVersion_found intersects loadTime now s isAuto sel ht
        (by simpa using hf)]
      rw [finishSelection_of_discontinued loadTime now (some s) isAuto sel hd]
      exact ⟨rfl, rfl⟩
  · subst hs
    rw [getSupportedNodeVersion_falsy intersects loadTime now er isAuto ht]
    rw [finishSelection_of_discontinued loadTime now er isAuto _ hd]
    exact ⟨rfl, rfl⟩

/-- Witness for C3 at a concrete input: absent range, call time equal to
the `8.10.x` discontinue date, so the default oldest fallback is
discontinued. -/
theorem claim_discontinued_failure_witness :
    (getSupportedNodeVersion (fun _ _ => true) 0 1578268800000 none true).1 =
      Except.error
        { code := "NOW_BUILD_UTILS_NODE_VERSION_DISCONTINUED",
          message := discontinuedIntro 0 none true ++ "\n" ++ upstreamProvider } ∧
    (getSupportedNodeVersion (fun _ _ => true) 0 1578268800000 none true).2 = [] :=
  claim_discontinued_failure (fun _ _ => true) 0 1578268800000 none true
    getOldestNodeVersion (Or.inr ⟨by decide, rfl⟩) (by decide)

/-- Claim C4: absent-range fallback.  With no requested range the
resolver returns the oldest known option (the last element of the
newest-to-oldest list) when it is not discontinued at call time, fails
with the `NOW_BUILD_UTILS_NODE_VERSION_DISCONTINUED` error when it is,
and never raises the `NOW_BUILD_UTILS_NODE_VERSION_INVALID` error on this
path. -/
theorem claim_absent_range_fallback (intersects : String → String → Bool)
    (loadTime now : Int) (isAuto : Bool) :
    ((isDiscontinued now getOldestNodeVersion = false →
        (getSupportedNodeVersion intersects loadTime now none isAuto).1 =
          Except.ok getOldestNodeVersion) ∧
     (isDiscontinued now getOldestNodeVersion = true →
        (getSupportedNodeVersion intersects loadTime now none isAuto).1 =
          Except.error
            { code := "NOW_BUILD_UTILS_NODE_VERSION_DISCONTINUED",
              message := discontinuedIntro loadTime none isAuto ++ "\n" ++ upstreamProvider }) ∧
     (∀ e, (getSupportedNodeVersion intersects loadTime now none isAuto).1 =
          Except.error e → e.code ≠ "NOW_BUILD_UTILS_NODE_VERSION_INVALID")) := by
  have hu := getSupportedNodeVersion_falsy intersects loadTime now none isAuto (by decide)
  refine ⟨fun h => ?_, fun h => ?_, fun e he => ?_⟩
  · rw [hu]
    exact finishSelection_of_not_discontinued loadTime now none isAuto _ h
  · rw [hu, finishSelection_of_discontinued loadTime now none isAuto _ h]
  · rw [hu] at he
    have hcode := (finishSelection_error loadTime now none isAuto _ e he).1
    rw [hcode]
    decide

/-- Witness for C4 at a concrete input: at call time 0 the oldest option
is not yet discontinued and is returned. -/
theorem claim_absent_range_fallback_witness :
    (getSupportedNodeVersion (fun _ _ => true) 0 0 none false).1 =
      Except.ok getOldestNodeVersion :=
  (claim_absent_range_fallback (fun _ _ => true) 0 0 false).1 (by decide)

/-- Counterexample to claim C5: the supported-ranges enumeration in the
`NOW_BUILD_UTILS_NODE_VERSION_INVALID` message is computed from the
module-level `supportedOptions` constant, i.e. with the clock at module
load, not at the call.  With load time 0 (before 2020-01-06) and call
time at the `8.10.x` discontinue date, the message of the failing call embeds
`pleaseUse 0`, which enumerates `["12.x","10.x","8.10.x"]`, while the
options not discontinued at call time are only `["12.x","10.x"]` — so
the message does not list the ranges supported at the time of the call. -/
theorem claim_supported_list_call_time_counterexample :
    (getSupportedNodeVersion (fun _ _ => false) 0 discontinueDate2020_01_06
        (some "6.x") false).1 =
      Except.error
        { code := "NOW_BUILD_UTILS_NODE_VERSION_INVALID",
          message := invalidIntro (some "6.x") false ++ "\n" ++ pleaseUse 0 } ∧
    (supportedOptions 0).map NodeVersion.range = ["12.x", "10.x", "8.10.x"] ∧
    (supportedOptions discontinueDate2020_01_06).map NodeVersion.range = ["12.x", "10.x"] ∧
    pleaseUse 0 ≠ pleaseUse discontinueDate2020_01_06 := by
  refine ⟨?_, by decide, by decide, by decide⟩
  rw [getSupportedNodeVersion_not_found (fun _ _ => false) 0 discontinueDate2020_01_06
    "6.x" false (by decide) (by decide)]

/-- Claim C5 as amended: on every failing call with a present (non-empty)
requested range matching no option, both phrasing variants of the
`NOW_BUILD_UTILS_NODE_VERSION_INVALID` message embed `pleaseUse loadTime`,
which enumerates exactly the ranges of the options not discontinued at
**module-load** time (the `supportedOptions` filter is evaluated once at
process start, not re-evaluated per call). -/
theorem claim_supported_list_load_time (intersects : String → String → Bool)
    (loadTime now : Int) (er : String) (isAuto : Bool)
    (her : er ≠ "")
    (hall : ∀ o ∈ allOptions, intersects o.range er = false) :
    (getSupportedNodeVersion intersects loadTime now (some er) isAuto).1 =
      Except.error
        { code := "NOW_BUILD_UTILS_NODE_VERSION_INVALID",
          message := invalidIntro (some er) isAuto ++ "\n" ++ pleaseUse loadTime } ∧
    pleaseUse loadTime =
      "Please use one of the following `engines` in your `package.json`: " ++
      jsonStringifyRanges
        ((allOptions.filter (fun o => !isDiscontinued loadTime o)).map NodeVersion.range) := by
  have ht := rangeTruthy_some er her
  have hf : allOptions.find? (fun o => intersects o.range er) = none := by
    rw [List.find?_eq_none]
    intro x hx
    simp [hall x hx]
  rw [getSupportedNodeVersion_not_found intersects loadTime now er isAuto ht hf]
  exact ⟨rfl, rfl⟩

/-- Witness for the amended C5 at a concrete input (auto phrasing
variant, load time 0). -/
theorem claim_supported_list_load_time_witness :
    (getSupportedNodeVersion (fun _ _ => false) 0 0 (some "6.x") true).1 =
      Except.error
        { code := "NOW_BUILD_UTILS_NODE_VERSION_INVALID",
          message := invalidIntro (some "6.x") true ++ "\n" ++ pleaseUse 0 } ∧
    pleaseUse 0 =
      "Please use one of the following `engines` in your `package.json`: " ++
      jsonStringifyRanges
        ((allOptions.filter (fun o => !isDiscontinued 0 o)).map NodeVersion.range) :=
  claim_supported_list_load_time (fun _ _ => false) 0 0 "6.x" true
    (by decide) (by decide)

/-- Claim C6: the advisory `console.warn` is emitted exactly on a
successful call whose selected option has a `discontinueDate`, which (the
discontinued check having passed) is then strictly in the future; the
warning payload contains the ISO discontinuation date.  No warning is
emitted on a successful call whose option has no `discontinueDate`, nor
on a failing call. -/
theorem claim_advisory_warning (intersects : String → String → Bool)
    (loadTime now : Int) (er : Option String) (isAuto : Bool) :
    ((∀ sel d,
        (getSupportedNodeVersion intersects loadTime now er isAuto).1 = Except.ok sel →
        sel.discontinueDate = some d →
        now < d ∧
        (getSupportedNodeVersion intersects loadTime now er isAuto).2 =
          [warnText loadTime (isAuto || !rangeTruthy er) sel] ∧
        ∃ s1 s2, warnText loadTime (isAuto || !rangeTruthy er) sel =
          s1 ++ isoDateOfMs d ++ s2) ∧
     (∀ sel,
        (getSupportedNodeVersion intersects loadTime now er isAuto).1 = Except.ok sel →
        sel.discontinueDate = none →
        (getSupportedNodeVersion intersects loadTime now er isAuto).2 = []) ∧
     (∀ e,
        (getSupportedNodeVersion intersects loadTime now er isAuto).1 = Except.error e →
        (getSupportedNodeVersion intersects loadTime now er isAuto).2 = [])) := by
  rcases getSupportedNodeVersion_cases intersects loadTime now er isAuto with ⟨s0, heq⟩ | heq
  · refine ⟨fun sel d hok hd => ?_, fun sel hok hd => ?_, fun e he => ?_⟩
    · rw [heq] at hok ⊢
      obtain ⟨hx, hnd⟩ := finishSelection_ok loadTime now er isAuto s0 sel hok
      subst hx
      have hlt : now < d := by
        simp [isDiscontinued, hd] at hnd
        omega
      refine ⟨hlt, ?_, ?_⟩
      · simp [finishSelection, isDiscontinued, hd, Int.not_le.mpr hlt]
      · exact ⟨"NOTICE" ++ "\n" ++
          "\nNode.js version " ++ sel.range ++ " has reached end-of-life." ++
          "\nAs a result, deployments created on or after ",
          " will fail to build." ++
          "\n" ++ (if isAuto || !rangeTruthy er then pleaseAdd else pleaseUse loadTime) ++
          "\n" ++ upstreamProvider,
          by simp [warnText, hd]⟩
    · rw [heq] at hok ⊢
      obtain ⟨hx, hnd⟩ := finishSelection_ok loadTime now er isAuto s0 sel hok
      subst hx
      simp [finishSelection, hnd, hd]
    · rw [heq] at he ⊢
      exact (finishSelection_error loadTime now er isAuto s0 e he).2.2
  · rw [heq]
    exact ⟨fun sel d hok => by simp at hok, fun sel hok => by simp at hok,
      fun e he => rfl⟩

/-- Witness for C6 at a concrete input: absent range at call time 0
selects the oldest option, whose discontinue date (2020-01-06) is still
in the future, so the call succeeds and emits the advisory warning
containing the ISO date. -/
theorem claim_advisory_warning_witness :
    (0 : Int) < discontinueDate2020_01_06 ∧
    (getSupportedNodeVersion (fun _ _ => true) 0 0 none false).2 =
      [warnText 0 true getOldestNodeVersion] ∧
    ∃ s1 s2, warnText 0 true getOldestNodeVersion =
      s1 ++ isoDateOfMs discontinueDate2020_01_06 ++ s2 :=
  (claim_advisory_warning (fun _ _ => true) 0 0 none false).1
    getOldestNodeVersion discontinueDate2020_01_06 (by rfl) (by rfl)

/-- The observable outcome of a resolution up to error-message wording:
the returned option on success, the error code on failure. -/
def outcomeShape : Except NowBuildError NodeVersion → Except String NodeVersion
  | Except.ok v => Except.ok v
  | Except.error e => Except.error e.code

theorem outcomeShape_finishSelection (loadTime now : Int) (er : Option String)
    (a b : Bool) (sel : NodeVersion) :
    outcomeShape (finishSelection loadTime now er a sel).1 =
    outcomeShape (finishSelection loadTime now er b sel).1 := by
  by_cases hd : isDiscontinued now sel = true
  · rw [finishSelection_of_discontinued loadTime now er a sel hd,
        finishSelection_of_discontinued loadTime now er b sel hd]
    rfl
  · rw [finishSelection_of_not_discontinued loadTime now er a sel (by simpa using hd),
        finishSelection_of_not_discontinued loadTime now er b sel (by simpa using hd)]

/-- Claim C7: `isAuto` does not influence selection.  For every
intersection test, clock and requested range, resolving with
`isAuto = true` and with `isAuto = false` give the same outcome up to
error-message wording: the same option on success and the same error
code (`INVALID` or `DISCONTINUED`) on failure. -/
theorem claim_isAuto_no_influence (intersects : String → String → Bool)
    (loadTime now : Int) (er : Option String) :
    outcomeShape (getSupportedNodeVersion intersects loadTime now er true).1 =
    outcomeShape (getSupportedNodeVersion intersects loadTime now er false).1 := by
  by_cases ht : rangeTruthy er = true
  · cases er with
    | none => simp [rangeTruthy] at ht
    | some s =>
      cases hfind : allOptions.find? (fun o => intersects o.range s) with
      | some x =>
        rw [getSupportedNodeVersion_found intersects loadTime now s true x ht hfind,
            getSupportedNodeVersion_found intersects loadTime now s false x ht hfind]
        exact outcomeShape_finishSelection loadTime now (some s) true false x
      | none =>
        rw [getSupportedNodeVersion_not_found intersects loadTime now s true ht hfind,
            getSupportedNodeVersion_not_found intersects loadTime now s false ht hfind]
        rfl
  · rw [getSupportedNodeVersion_falsy intersects loadTime now er true (by simpa using ht),
        getSupportedNodeVersion_falsy intersects loadTime now er false (by simpa using ht)]
    exact outcomeShape_finishSelection loadTime now er true false getOldestNodeVersion

/-- Claim C8: the static option list is a fixed value (immutable by
construction in this embedding, matching the source where `allOptions` is
a module-level constant that no export reassigns or mutates) and is
ordered strictly newest-to-oldest by major version. -/
theorem claim_static_ordering :
    List.Chain' (fun a b : NodeVersion => b.major < a.major) allOptions ∧
    allOptions.map NodeVersion.major = [12, 10, 8] :=
  ⟨by simp [allOptions, List.chain'_cons], by decide⟩

/-- Claim C9: an empty-string requested range is falsy, so it behaves
exactly like an absent range with auto phrasing: the whole call (result
and warnings, hence all message wording) coincides with the
`engineRange = none, isAuto = true` call whatever `isAuto` was; the range
scan is skipped, so the call never fails with
`NOW_BUILD_UTILS_NODE_VERSION_INVALID`; it returns the oldest option when
that option is not discontinued at call time and fails with
`NOW_BUILD_UTILS_NODE_VERSION_DISCONTINUED` when it is. -/
theorem claim_empty_range_as_absent (intersects : String → String → Bool)
    (loadTime now : Int) (isAuto : Bool) :
    (getSupportedNodeVersion intersects loadTime now (some "") isAuto =
      getSupportedNodeVersion intersects loadTime now none true) ∧
    (∀ e, (getSupportedNodeVersion intersects loadTime now (some "") isAuto).1 =
        Except.error e → e.code = "NOW_BUILD_UTILS_NODE_VERSION_DISCONTINUED") ∧
    (isDiscontinued now getOldestNodeVersion = false →
      (getSupportedNodeVersion intersects loadTime now (some "") isAuto).1 =
        Except.ok getOldestNodeVersion) ∧
    (isDiscontinued now getOldestNodeVersion = true →
      ∃ e, (getSupportedNodeVersion intersects loadTime now (some "") isAuto).1 =
        Except.error e ∧ e.code = "NOW_BUILD_UTILS_NODE_VERSION_DISCONTINUED") := by
  have hu := getSupportedNodeVersion_falsy intersects loadTime now (some "") isAuto (by rfl)
  refine ⟨?_, fun e he => ?_, fun h => ?_, fun h => ?_⟩
  · rw [hu, getSupportedNodeVersion_falsy intersects loadTime now none true (by rfl)]
    simp [finishSelection, discontinuedIntro, warnText, rangeTruthy]
  · rw [hu] at he
    exact (finishSelection_error loadTime now (some "") isAuto _ e he).1
  · rw [hu]
    exact finishSelection_of_not_discontinued loadTime now (some "") isAuto _ h
  · rw [hu, finishSelection_of_discontinued loadTime now (some "") isAuto _ h]
    exact ⟨_, rfl, rfl⟩

/-- Witness for C9 at a concrete input: empty range with
`isAuto = false` at call time 0 behaves like the absent-range auto call
and returns the oldest option. -/
theorem claim_empty_range_as_absent_witness :
    (getSupportedNodeVersion (fun _ _ => true) 0 0 (some "") false).1 =
      Except.ok getOldestNodeVersion :=
  (claim_empty_range_as_absent (fun _ _ => true) 0 0 false).2.2.1 (by decide)

/-- Claim C10: closed result set — every option a successful call
returns is an element of the static `allOptions` list; the resolver never
constructs an option outside it. -/
theorem claim_closed_result_set (intersects : String → String → Bool)
    (loadTime now : Int) (er : Option String) (isAuto : Bool) (sel : NodeVersion)
    (h : (getSupportedNodeVersion intersects loadTime now er isAuto).1 = Except.ok sel) :
    sel ∈ allOptions := by
  by_cases ht : rangeTruthy er = true
  · cases er with
    | none => simp [rangeTruthy] at ht
    | some s =>
      cases hfind : allOptions.find? (fun o => intersects o.range s) with
      | some x =>
        rw [getSupportedNodeVersion_found intersects loadTime now s isAuto x ht hfind] at h
        rw [(finishSelection_ok loadTime now (some s) isAuto x sel h).1]
        exact List.mem_of_find?_eq_some hfind
      | none =>
        rw [getSupportedNodeVersion_not_found intersects loadTime now s isAuto ht hfind] at h
        exact absurd h (by simp)
  · rw [getSupportedNodeVersion_falsy intersects loadTime now er isAuto (by simpa using ht)] at h
    rw [(finishSelection_ok loadTime now er isAuto _ sel h).1]
    decide

/-- Witness for C10 at a concrete input. -/
theorem claim_closed_result_set_witness : getOldestNodeVersion ∈ allOptions :=
  claim_closed_result_set (fun _ _ => true) 0 0 none false getOldestNodeVersion (by rfl)
